import Mathlib

/-!
Shallow embedding of the token-lifecycle and credential-security core of the
sawyer-web-backend-node repository, together with proofs settling the claims
about it.  Each definition is a direct translation of the corresponding
JavaScript function; cryptographic primitives (JWT signing, AES-GCM, AES-CBC,
bcrypt) and network calls are abstracted as function parameters, since the
JavaScript code treats them as black boxes as well.
-/

namespace Sawyer

/-- milliseconds in the two-hour lockout window of User.incLoginAttempts. -/
def twoHoursMs : Nat := 2 * 60 * 60 * 1000

/-- milliseconds in the ten-minute OAuth state lifetime. -/
def tenMinutesMs : Nat := 10 * 60 * 1000

/-- one entry of the refreshTokens array in the User document. -/
structure RefreshRec where
  token : String
  ip : Option String := none
  userAgent : Option String := none
  deriving DecidableEq

/-- the fields of the User document that the token lifecycle touches. -/
structure UserRec where
  id : String
  tokenVersion : Nat := 0
  loginAttempts : Nat := 0
  lockUntil : Option Nat := none
  isActive : Bool := true
  refreshTokens : List RefreshRec := []
  deriving DecidableEq

/-- the isLocked virtual of User.js: lockUntil exists and lies in the future. -/
def UserRec.isLocked (u : UserRec) (now : Nat) : Bool :=
  match u.lockUntil with
  | some l => decide (now < l)
  | none => false

/-- the unlocked branch of incLoginAttempts: increment, and lock for two hours
once the post-increment count reaches five while the account is not locked. -/
def UserRec.bumpAttempts (u : UserRec) (now : Nat) : UserRec :=
  let a := u.loginAttempts + 1
  { u with
    loginAttempts := a,
    lockUntil :=
      if 5 ≤ a ∧ u.isLocked now = false then some (now + twoHoursMs)
      else u.lockUntil }

/-- User.incLoginAttempts: when a previous lock has expired, restart the count
at one and clear the lock, otherwise increment and possibly lock. -/
def UserRec.incLoginAttempts (u : UserRec) (now : Nat) : UserRec :=
  match u.lockUntil with
  | some l =>
    if l < now then { u with loginAttempts := 1, lockUntil := none }
    else u.bumpAttempts now
  | none => u.bumpAttempts now

/-- User.resetLoginAttempts: clear the counter and the lock. -/
def UserRec.resetLoginAttempts (u : UserRec) : UserRec :=
  { u with loginAttempts := 0, lockUntil := none }

/-- User.addRefreshToken: append the record and keep only the last ten. -/
def UserRec.addRefreshToken (u : UserRec) (tok : String)
    (ip ua : Option String) : UserRec :=
  let l := u.refreshTokens ++ [{ token := tok, ip := ip, userAgent := ua }]
  { u with refreshTokens := if l.length > 10 then l.drop (l.length - 10) else l }

/-- User.removeRefreshToken: drop every record holding the given token. -/
def UserRec.removeRefreshToken (u : UserRec) (tok : String) : UserRec :=
  { u with refreshTokens := u.refreshTokens.filter (fun rt => rt.token != tok) }

/-- User.removeAllRefreshTokens: empty the list and bump tokenVersion. -/
def UserRec.removeAllRefreshTokens (u : UserRec) : UserRec :=
  { u with refreshTokens := [], tokenVersion := u.tokenVersion + 1 }

/-- the payload of a signature-valid refresh token, as decoded by
AuthService.verifyRefreshToken. -/
structure RPayload where
  userId : String
  jti : String
  deriving DecidableEq

/-- the observable outcomes of AuthService.refreshTokens: each error branch of
the JavaScript throws a distinct message; success returns the new pair and
leaves the user document updated. -/
inductive RotateOutcome where
  | invalidToken
  | userNotFound
  | reuseDetected (u : UserRec)
  | rotated (u : UserRec) (accessToken refreshToken : String)
  deriving DecidableEq

/-- AuthService.refreshTokens.  verify abstracts jwt.verify against the
refresh secret, lookup abstracts User.findById, genAccess and genRefresh
abstract the two jwt.sign calls of generateTokenPair. -/
def refreshTokensOp (verify : String → Option RPayload)
    (lookup : String → Option UserRec)
    (genAccess genRefresh : UserRec → String)
    (tok : String) (ip ua : Option String) : RotateOutcome :=
  match verify tok with
  | none => .invalidToken
  | some p =>
    match lookup p.userId with
    | none => .userNotFound
    | some u =>
      if u.refreshTokens.any (fun rt => rt.token == tok) then
        let u1 := u.removeRefreshToken tok
        let newRefresh := genRefresh u1
        .rotated (u1.addRefreshToken newRefresh ip ua) (genAccess u1) newRefresh
      else
        .reuseDetected u.removeAllRefreshTokens

/-- the decoded payload of an access token in the auth middleware. -/
structure APayload where
  userId : Option String
  tokenVersion : Option Nat
  deriving DecidableEq

/-- result of jwt.verify in the middleware: expired, invalid, or decoded. -/
inductive JwtResult where
  | expired
  | invalid
  | valid (p : APayload)
  deriving DecidableEq

/-- the ways the auth middleware can answer before or instead of calling
next(); allowed carries the user document attached to the request. -/
inductive AuthOutcome where
  | tokenExpired
  | tokenInvalid
  | invalidPayload
  | userNotFound
  | deactivated
  | locked
  | missingVersion
  | revoked
  | allowed (u : UserRec)
  deriving DecidableEq

/-- the HTTP status each middleware outcome produces in the source. -/
def AuthOutcome.httpStatus : AuthOutcome → Nat
  | .allowed _ => 200
  | .locked => 423
  | _ => 401

/-- the auth middleware decision chain after token extraction: verify result,
payload checks, user load, isActive, isLocked, then the tokenVersion gate. -/
def authDecision (jr : JwtResult) (lookup : String → Option UserRec)
    (now : Nat) : AuthOutcome :=
  match jr with
  | .expired => .tokenExpired
  | .invalid => .tokenInvalid
  | .valid p =>
    match p.userId with
    | none => .invalidPayload
    | some uid =>
      match lookup uid with
      | none => .userNotFound
      | some u =>
        if u.isActive = false then .deactivated
        else if u.isLocked now then .locked
        else
          match p.tokenVersion with
          | none => .missingVersion
          | some v => if v ≠ u.tokenVersion then .revoked else .allowed u

/-- outcomes of AuthController.login. -/
inductive LoginOutcome where
  | invalidCredentials
  | lockedOut
  | deactivated
  | success
  deriving DecidableEq

/-- the HTTP status each login outcome produces in the source. -/
def LoginOutcome.httpStatus : LoginOutcome → Nat
  | .invalidCredentials => 401
  | .lockedOut => 423
  | .deactivated => 401
  | .success => 200

/-- what a login attempt leaves behind: the response outcome, the user
document after any update, and whether bcrypt ran against the real hash. -/
structure LoginResult where
  outcome : LoginOutcome
  userAfter : Option UserRec
  realCompare : Bool
  deriving DecidableEq

/-- AuthController.login: missing fields or unknown user get the dummy
comparison and a generic failure; a locked account is refused with 423 before
any password comparison; a wrong password increments the attempt counter; an
inactive account is refused after comparison; success resets the counter. -/
def loginOp (fieldsPresent : Bool) (u? : Option UserRec)
    (passwordValid : Bool) (now : Nat) : LoginResult :=
  if fieldsPresent = false then
    { outcome := .invalidCredentials, userAfter := u?, realCompare := false }
  else
    match u? with
    | none =>
      { outcome := .invalidCredentials, userAfter := none, realCompare := false }
    | some u =>
      if u.isLocked now then
        { outcome := .lockedOut, userAfter := some u, realCompare := false }
      else if passwordValid = false then
        { outcome := .invalidCredentials,
          userAfter := some (u.incLoginAttempts now), realCompare := true }
      else if u.isActive = false then
        { outcome := .deactivated, userAfter := some u, realCompare := true }
      else
        { outcome := .success,
          userAfter := some (if u.loginAttempts > 0 then u.resetLoginAttempts else u),
          realCompare := true }

/-- the structured payload EncryptionService.encrypt serialises: hex
ciphertext, hex initialisation vector, hex authentication tag. -/
structure Blob where
  encrypted : String
  iv : String
  authTag : String
  deriving DecidableEq

/-- the JSON string the service stores for a blob, exactly the shape
JSON.stringify produces for the object literal in encrypt. -/
def renderBlob (b : Blob) : String :=
  "\x7b\"encrypted\":\"" ++ b.encrypted ++ "\",\"iv\":\"" ++ b.iv ++
    "\",\"authTag\":\"" ++ b.authTag ++ "\"\x7d"

/-- a stored string, classified by whether JSON.parse recovers the blob
structure from it: blobStr b stands for renderBlob b, plainStr s for a
string that does not parse as the structured blob. -/
inductive StoredString where
  | blobStr (b : Blob)
  | plainStr (s : String)
  deriving DecidableEq

/-- the character content of a stored string. -/
def StoredString.asString : StoredString → String
  | .blobStr b => renderBlob b
  | .plainStr s => s

/-- EncryptionService.encrypt on a nonempty input: aes-256-gcm sealing is
abstracted as gcmSeal; the stored value is the serialised blob. -/
def encryptOp (gcmSeal : String → Blob) (s : String) : StoredString :=
  .blobStr (gcmSeal s)

/-- what EncryptionService.decrypt can hand back. -/
inductive DecResult where
  | plaintext (s : String)
  | failure
  | nullResult
  deriving DecidableEq

/-- EncryptionService.decrypt on a string-typed stored value.  gcmOpen
abstracts aes-256-gcm opening: some p when the authentication tag verifies,
none when decipher.final throws.  The JavaScript wraps the whole parse-and-
decipher block in one try whose catch treats any error as legacy unencrypted
data and returns the input string unchanged, so a failed tag lands in the
plaintext branch carrying the serialised blob itself. -/
def decryptOp (gcmOpen : Blob → Option String) :
    Option StoredString → DecResult
  | none => .nullResult
  | some (.blobStr b) =>
    match gcmOpen b with
    | some p => .plaintext p
    | none => .plaintext (renderBlob b)
  | some (.plainStr s) => .plaintext s

/-- one correlation entry of the in-memory OAuth state store. -/
structure OAuthStateData where
  userId : String
  integrationId : String
  redirectUri : String
  timestamp : Nat
  deriving DecidableEq

/-- the stateStorage Map of OAuthService, as an association list. -/
abbrev StateStore := List (String × OAuthStateData)

/-- Map.get. -/
def storeGet (st : StateStore) (k : String) : Option OAuthStateData :=
  (st.find? (fun p => p.1 == k)).map Prod.snd

/-- Map.delete. -/
def storeDelete (st : StateStore) (k : String) : StateStore :=
  st.filter (fun p => p.1 != k)

/-- Map.set: replace an existing key or append a new one. -/
def storeSet (st : StateStore) (k : String) (v : OAuthStateData) : StateStore :=
  if st.any (fun p => p.1 == k) then
    st.map (fun p => if p.1 == k then (k, v) else p)
  else st ++ [(k, v)]

/-- OAuthService.cleanupExpiredStates: drop entries older than ten minutes. -/
def cleanupExpiredStates (now : Nat) (st : StateStore) : StateStore :=
  st.filter (fun p => !(decide (tenMinutesMs < now - p.2.timestamp)))

/-- the effect of OAuthService.generateAuthUrl on the state store: record the
fresh nonce with the current timestamp, then run the lazy sweep. -/
def generateAuthUrlStore (st : StateStore) (nonce userId integrationId
    redirectUri : String) (now : Nat) : StateStore :=
  cleanupExpiredStates now
    (storeSet st nonce
      { userId := userId, integrationId := integrationId,
        redirectUri := redirectUri, timestamp := now })

/-- the token-endpoint response fields the services read. -/
structure TokenResp where
  access_token : Option String := none
  refresh_token : Option String := none
  expires_in : Option Nat := none
  workspace_id : Option String := none
  organization_id : Option String := none
  deriving DecidableEq

/-- the status enumeration of the UserIntegration schema. -/
inductive ConnStatus where
  | connected
  | disconnected
  | error
  | pending
  deriving DecidableEq

/-- the fields of a UserIntegration document that the token flow touches. -/
structure IntegrationRec where
  userId : String
  integrationId : String
  status : ConnStatus := .pending
  accessToken : Option StoredString := none
  refreshToken : Option StoredString := none
  tokenExpiresAt : Option Nat := none
  workspaceId : Option String := none
  organizationId : Option String := none
  deriving DecidableEq

/-- the isTokenValid virtual: valid when no expiry is recorded or the expiry
lies in the future. -/
def IntegrationRec.isTokenValid (i : IntegrationRec) (now : Nat) : Bool :=
  match i.tokenExpiresAt with
  | none => true
  | some t => decide (now < t)

/-- UserIntegration.updateToken: the provider tokens are written into
connectionData verbatim, with no call into the encryption service. -/
def IntegrationRec.updateToken (i : IntegrationRec) (td : TokenResp)
    (now : Nat) : IntegrationRec :=
  { i with
    accessToken := td.access_token.map .plainStr,
    refreshToken :=
      match td.refresh_token with
      | some r => some (.plainStr r)
      | none => i.refreshToken,
    tokenExpiresAt :=
      match td.expires_in with
      | some e => some (now + e * 1000)
      | none => i.tokenExpiresAt,
    status := .connected }

/-- the distinct error branches of OAuthService.handleCallback and
createOrUpdateIntegration. -/
inductive CbErr where
  | providerError
  | missingParams
  | stateInvalid
  | integrationNotFound
  | exchangeFailed
  | noAccessToken
  deriving DecidableEq

/-- success or failure of a callback, with the saved integration. -/
inductive CbResult where
  | failed (e : CbErr)
  | succeeded (i : IntegrationRec)
  deriving DecidableEq

/-- the durable UserIntegration collection, one record per document. -/
abbrev IntStore := List IntegrationRec

/-- findOneAndUpdate with upsert keyed by (userId, integrationId): replace
the matching document wholesale or insert a new one. -/
def upsertIntegration (ints : IntStore) (r : IntegrationRec) : IntStore :=
  if ints.any (fun i => i.userId == r.userId && i.integrationId == r.integrationId) then
    ints.map (fun i =>
      if i.userId == r.userId && i.integrationId == r.integrationId then r else i)
  else ints ++ [r]

/-- OAuthService.createOrUpdateIntegration: refuse a response with no access
token, otherwise encrypt both tokens and upsert the connected record. -/
def createOrUpdateIntegration (gcmSeal : String → Blob) (ints : IntStore)
    (userId integrationId : String) (td : TokenResp) (now : Nat) :
    CbResult × IntStore :=
  match td.access_token with
  | none => (.failed .noAccessToken, ints)
  | some at1 =>
    let r : IntegrationRec :=
      { userId := userId, integrationId := integrationId, status := .connected,
        accessToken := some (encryptOp gcmSeal at1),
        refreshToken := td.refresh_token.map (fun rt => encryptOp gcmSeal rt),
        tokenExpiresAt := td.expires_in.map (fun e => now + e * 1000),
        workspaceId := td.workspace_id,
        organizationId := td.organization_id }
    (.succeeded r, upsertIntegration ints r)

/-- what a callback leaves behind: the response, the state store and the
integration collection. -/
structure CallbackResult where
  result : CbResult
  store : StateStore
  ints : IntStore
  deriving DecidableEq

/-- OAuthService.handleCallback: provider error and missing parameters fail
first; the state is looked up by presence alone (no age check) and deleted
before the code exchange; exchange abstracts the provider token endpoint,
known abstracts getMCPServerById. -/
def handleCallback (known : String → Bool)
    (exchange : String → String → String → Option TokenResp)
    (gcmSeal : String → Blob)
    (st : StateStore) (ints : IntStore)
    (code? state? provErr? : Option String) (now : Nat) : CallbackResult :=
  if provErr?.isSome then { result := .failed .providerError, store := st, ints := ints }
  else
    match code?, state? with
    | some c, some s =>
      match storeGet st s with
      | none => { result := .failed .stateInvalid, store := st, ints := ints }
      | some sd =>
        let st1 := storeDelete st s
        if known sd.integrationId = false then
          { result := .failed .integrationNotFound, store := st1, ints := ints }
        else
          match exchange sd.integrationId c sd.redirectUri with
          | none => { result := .failed .exchangeFailed, store := st1, ints := ints }
          | some td =>
            match createOrUpdateIntegration gcmSeal ints sd.userId sd.integrationId td now with
            | (res, ints1) => { result := res, store := st1, ints := ints1 }
    | _, _ => { result := .failed .missingParams, store := st, ints := ints }

/-- the failure branches of OAuthService.getValidAccessToken. -/
inductive TokErr where
  | notConnected
  | expiredNoRefresh
  | refreshFailed
  | decryptNull
  deriving DecidableEq

/-- result of getValidAccessToken: the plaintext token handed back, plus the
integration document as saved when the silent refresh ran. -/
inductive TokenFetch where
  | failed (e : TokErr)
  | fetched (token : Option String) (updated : Option IntegrationRec)
  deriving DecidableEq

/-- OAuthService.getValidAccessToken: decrypt the stored access token; hand
it back while the expiry lies in the future; otherwise run the refresh grant
when a refresh token is stored, persist the response through updateToken and
return the new access token; fail when no refresh token is available. -/
def getValidAccessToken (gcmOpen : Blob → Option String)
    (refreshExchange : String → String → Option TokenResp)
    (integration : Option IntegrationRec) (now : Nat) : TokenFetch :=
  match integration with
  | none => .failed .notConnected
  | some i =>
    if i.status ≠ ConnStatus.connected then .failed .notConnected
    else
      match decryptOp gcmOpen i.accessToken with
      | .plaintext accessToken =>
        if i.isTokenValid now then .fetched (some accessToken) none
        else
          match i.refreshToken with
          | some rtStored =>
            match decryptOp gcmOpen (some rtStored) with
            | .plaintext rt =>
              match refreshExchange i.integrationId rt with
              | none => .failed .refreshFailed
              | some td => .fetched td.access_token (some (i.updateToken td now))
            | _ => .failed .decryptNull
          | none => .failed .expiredNoRefresh
      | _ =>
        if i.isTokenValid now then .fetched none none
        else
          match i.refreshToken with
          | some rtStored =>
            match decryptOp gcmOpen (some rtStored) with
            | .plaintext rt =>
              match refreshExchange i.integrationId rt with
              | none => .failed .refreshFailed
              | some td => .fetched td.access_token (some (i.updateToken td now))
            | _ => .failed .decryptNull
          | none => .failed .expiredNoRefresh

/-- the fields of an ApiKey document that the vault logic touches. -/
structure ApiKeyRec where
  userId : String
  provider : String
  keyName : String
  encryptedApiKey : String
  keyPrefix : String
  isActive : Bool := true
  isVerified : Bool := false
  createdAt : Nat := 0
  deriving DecidableEq

/-- the durable ApiKey collection. -/
abbrev VaultStore := List ApiKeyRec

/-- whether a record is active for the given (user, provider) pair. -/
def activeMatch (q r : String) (k : ApiKeyRec) : Bool :=
  k.userId == q && k.provider == r && k.isActive

/-- the number of active records stored for a (user, provider) pair. -/
def countActive (s : VaultStore) (q r : String) : Nat :=
  s.countP (activeMatch q r)

/-- the uniqueness property the partial index over active records enforces:
never more than one active record per (user, provider) pair. -/
def activeUniq (s : VaultStore) : Prop :=
  ∀ q r, countActive s q r ≤ 1

/-- the individual durable writes the vault issues.  wipeActive is
ApiKey.deactivateForUserAndProvider (updateMany over the pair); insertActive
is saving the freshly built record, which the unique index over active
records rejects when an active record for its pair already exists;
deactivateOne is the findOne-then-deactivate of deleteApiKey. -/
inductive VaultWrite where
  | wipeActive (userId provider : String)
  | insertActive (r : ApiKeyRec)
  | deactivateOne (userId provider : String)
  deriving DecidableEq

/-- deactivate the first active record of the pair, as findOne followed by
deactivate does. -/
def deactivateFirst : VaultStore → String → String → VaultStore
  | [], _, _ => []
  | k :: rest, uid, p =>
    if activeMatch uid p k then { k with isActive := false } :: rest
    else k :: deactivateFirst rest uid p

/-- apply one durable write.  An insert that the unique partial index
rejects leaves the store unchanged (the save throws). -/
def applyWrite : VaultWrite → VaultStore → VaultStore
  | .wipeActive uid p, s =>
    s.map (fun k =>
      if k.userId == uid && k.provider == p then { k with isActive := false } else k)
  | .insertActive r, s =>
    if countActive s r.userId r.provider > 0 then s
    else s ++ [{ r with isActive := true }]
  | .deactivateOne uid p, s => deactivateFirst s uid p

/-- the vault operations of ApiKeyService reachable from the routes. -/
inductive VaultOp where
  | save (r : ApiKeyRec)
  | del (userId provider : String)
  deriving DecidableEq

/-- the durable writes an operation issues, in order: saveApiKey first
deactivates every record of the pair, then inserts the new active one;
deleteApiKey deactivates the active record. -/
def writesOf : VaultOp → List VaultWrite
  | .save r => [.wipeActive r.userId r.provider, .insertActive r]
  | .del uid p => [.deactivateOne uid p]

/-- the writes of a whole operation sequence. -/
def writesOfOps (ops : List VaultOp) : List VaultWrite :=
  (ops.map writesOf).flatten

/-- every store state a write sequence passes through, the initial and final
states included. -/
def runWrites (s : VaultStore) : List VaultWrite → List VaultStore
  | [] => [s]
  | w :: ws => s :: runWrites (applyWrite w s) ws

/-- one row of the response body of the api-key listing route. -/
structure ListedApiKey where
  provider : String
  keyName : String
  apiKey : String
  createdAt : Nat
  deriving DecidableEq

/-- ApiKeyService.getUserApiKeys, which the GET listing route returns
verbatim: select the active records of the user with the encrypted key
included, and map each to a row whose apiKey field is the decrypted key.
cbcOpen abstracts decryptApiKey of the aes-256-cbc helper. -/
def getUserApiKeys (cbcOpen : String → String) (store : VaultStore)
    (userId : String) : List ListedApiKey :=
  (store.filter (fun k => k.userId == userId && k.isActive)).map
    (fun k =>
      { provider := k.provider, keyName := k.keyName,
        apiKey := cbcOpen k.encryptedApiKey, createdAt := k.createdAt })

/-! Concrete inputs used by the witnesses and counterexamples below. -/

/-- a user holding two refresh tokens, used by the C1 and C7 witnesses. -/
def uEx : UserRec :=
  { id := "u1", tokenVersion := 3, loginAttempts := 0, lockUntil := none,
    isActive := true,
    refreshTokens := [{ token := "rtOld" }, { token := "rtOther" }] }

/-- signature verification accepting exactly the two example tokens. -/
def verifyEx : String → Option RPayload := fun t =>
  if t == "rtOld" then some { userId := "u1", jti := "j1" }
  else if t == "rtGone" then some { userId := "u1", jti := "j2" }
  else none

/-- User.findById for the single example user. -/
def lookupEx : String → Option UserRec := fun uid =>
  if uid == "u1" then some uEx else none

/-- access-token signing for the examples. -/
def genAccessEx : UserRec → String := fun _ => "accessNew"

/-- refresh-token signing for the examples. -/
def genRefreshEx : UserRec → String := fun _ => "rtNew"

/-- a locked user for the C6 and C10 witnesses. -/
def uLockedEx : UserRec :=
  { id := "u2", tokenVersion := 1, loginAttempts := 5,
    lockUntil := some 5000, isActive := true, refreshTokens := [] }

/-- a deactivated user for the C10 witness. -/
def uInactiveEx : UserRec :=
  { id := "u3", tokenVersion := 2, loginAttempts := 0, lockUntil := none,
    isActive := false, refreshTokens := [] }

/-- a tampered blob whose authentication tag no longer verifies. -/
def blobC4 : Blob := { encrypted := "deadbeef", iv := "00112233", authTag := "feedface" }

/-- aes-256-gcm opening on the tampered blob: the tag check fails. -/
def gcmRejectC4 : Blob → Option String := fun _ => none

/-- a connected integration with an expired access token and a stored
refresh token, both encrypted, for the C2 failing input. -/
def iC2 : IntegrationRec :=
  { userId := "u1", integrationId := "github", status := .connected,
    accessToken := some (.blobStr { encrypted := "aa", iv := "i1", authTag := "t1" }),
    refreshToken := some (.blobStr { encrypted := "bb", iv := "i2", authTag := "t2" }),
    tokenExpiresAt := some 1000 }

/-- aes-256-gcm opening for the C2 scenario: both stored blobs decrypt. -/
def gcmOpenC2 : Blob → Option String := fun b =>
  if b.encrypted == "aa" then some "oldAccess"
  else if b.encrypted == "bb" then some "oldRefresh"
  else none

/-- the refresh-grant exchange for the C2 scenario: the provider answers
with fresh plaintext tokens. -/
def refreshExC2 : String → String → Option TokenResp := fun _ _ =>
  some { access_token := some "newtok", refresh_token := some "newref",
         expires_in := some 3600 }

/-- the integration document as saved by the silent-refresh path of the C2
scenario. -/
def iC2after : IntegrationRec :=
  iC2.updateToken
    { access_token := some "newtok", refresh_token := some "newref",
      expires_in := some 3600 } 2000

/-- a state store holding one entry issued at time zero, for C5. -/
def stC5 : StateStore :=
  [("s1", { userId := "u1", integrationId := "notion",
            redirectUri := "https://app/cb", timestamp := 0 })]

/-- getMCPServerById for the C5 scenario. -/
def knownC5 : String → Bool := fun id => id == "notion"

/-- the code exchange for the C5 scenario. -/
def exchangeC5 : String → String → String → Option TokenResp := fun _ _ _ =>
  some { access_token := some "tok123", expires_in := some 3600 }

/-- aes-256-gcm sealing for the C5 scenario. -/
def sealC5 : String → Blob := fun s =>
  { encrypted := "enc-" ++ s, iv := "iv", authTag := "tag" }

/-- the callback instant of the C5 counterexample: eleven minutes after the
state was issued, with no intervening sweep. -/
def nowC5 : Nat := 11 * 60 * 1000

/-- the single active stored key of the C9 failing input. -/
def apiKeyStoreC9 : VaultStore :=
  [{ userId := "u1", provider := "openai", keyName := "My Key",
     encryptedApiKey := "aaaa:bbbb", keyPrefix := "sk-secr...",
     isActive := true, isVerified := true, createdAt := 5 }]

/-- aes-256-cbc opening for the C9 scenario: the stored blob decrypts to
the full plaintext key. -/
def cbcOpenC9 : String → String := fun s =>
  if s == "aaaa:bbbb" then "sk-secret1234567" else s

/-- the access-token payload used by the C3 witness: carries version 0 while
the example user is at version 3. -/
def pC3 : APayload := { userId := some "u1", tokenVersion := some 0 }

/-- the access-token payload used by the C10 witness: carries the locked
example user's current version. -/
def pC10 : APayload := { userId := some "u2", tokenVersion := some 1 }

/-- User.findById for the locked and deactivated example users. -/
def lookup2Ex : String → Option UserRec := fun uid =>
  if uid == "u2" then some uLockedEx
  else if uid == "u3" then some uInactiveEx
  else none

/-- helper: the record appended by addRefreshToken. -/
def mkRefreshRec (tok : String) (ip ua : Option String) : RefreshRec :=
  { token := tok, ip := ip, userAgent := ua }

/-- the first example key record saved for the C8 witness. -/
def recC8a : ApiKeyRec :=
  { userId := "u1", provider := "openai", keyName := "K1",
    encryptedApiKey := "11:22", keyPrefix := "sk-1...", isActive := true }

/-- the second example key record saved for the same pair. -/
def recC8b : ApiKeyRec :=
  { userId := "u1", provider := "openai", keyName := "K2",
    encryptedApiKey := "33:44", keyPrefix := "sk-2...", isActive := true }

/-- the C8 witness operation sequence: two saves for the same pair, then a
delete. -/
def opsC8 : List VaultOp :=
  [.save recC8a, .save recC8b, .del "u1" "openai"]

/-- the store state after the second save of the C8 witness sequence: the
first record deactivated, the second active. -/
def vaultS1ex : VaultStore :=
  [{ recC8a with isActive := false }, recC8b]

/-- a user four failed attempts in, for the C6 witness. -/
def uAlmostEx : UserRec :=
  { id := "u4", tokenVersion := 0, loginAttempts := 4, lockUntil := none,
    isActive := true, refreshTokens := [] }

/-! Theorems settling the claims follow. -/

/-- C1: when the presented refresh token verifies and the referenced user
exists but the token is absent from the stored list, refreshTokens answers
with the distinct reuse-detected error (no new pair), the stored list is
wiped to zero entries, and tokenVersion ends strictly greater than before. -/
theorem c1_reuse_detection_revokes_all
    (verify : String → Option RPayload) (lookup : String → Option UserRec)
    (genAccess genRefresh : UserRec → String) (tok : String)
    (ip ua : Option String) (p : RPayload) (u : UserRec)
    (hv : verify tok = some p) (hl : lookup p.userId = some u)
    (habs : u.refreshTokens.any (fun rt => rt.token == tok) = false) :
    refreshTokensOp verify lookup genAccess genRefresh tok ip ua =
      .reuseDetected u.removeAllRefreshTokens ∧
    u.removeAllRefreshTokens.refreshTokens = [] ∧
    u.tokenVersion < u.removeAllRefreshTokens.tokenVersion := by
  refine ⟨?_, rfl, ?_⟩
  · simp [refreshTokensOp, hv, hl, habs]
  · simp [UserRec.removeAllRefreshTokens]

/-- C1 witness: the example user holds rtOld and rtOther; presenting the
signature-valid rtGone trips reuse detection. -/
theorem c1_witness :
    refreshTokensOp verifyEx lookupEx genAccessEx genRefreshEx "rtGone" none none =
      .reuseDetected uEx.removeAllRefreshTokens ∧
    uEx.removeAllRefreshTokens.refreshTokens = [] ∧
    uEx.tokenVersion < uEx.removeAllRefreshTokens.tokenVersion :=
  c1_reuse_detection_revokes_all verifyEx lookupEx genAccessEx genRefreshEx
    "rtGone" none none { userId := "u1", jti := "j2" } uEx
    (by decide) (by decide) (by decide)

/-- C2: on the silent-refresh path of getValidAccessToken the integration is
saved through updateToken, which writes the provider's plaintext tokens into
connectionData; the stored access token is the raw provider string, which no
output of the encryption service can equal, contradicting the claim that
token writes always store the output of encrypt. -/
theorem c2_refresh_path_stores_plaintext :
    getValidAccessToken gcmOpenC2 refreshExC2 (some iC2) 2000 =
      .fetched (some "newtok") (some iC2after) ∧
    iC2after.accessToken = some (.plainStr "newtok") ∧
    iC2after.refreshToken = some (.plainStr "newref") ∧
    (∀ gcmSeal : String → Blob, ∀ s : String,
      iC2after.accessToken ≠ some (encryptOp gcmSeal s)) := by
  refine ⟨by decide, by decide, by decide, ?_⟩
  intro gcmSeal s h
  simp [iC2after, IntegrationRec.updateToken, encryptOp] at h

/-- C4: a stored blob whose authentication tag no longer verifies makes
decipher.final throw inside the same try as JSON.parse, so the catch treats
the blob as legacy unencrypted data: decrypt returns the corrupted blob
string itself as plaintext instead of failing with a decryption error. -/
theorem c4_tampered_blob_returned_as_plaintext :
    decryptOp gcmRejectC4 (some (.blobStr blobC4)) =
      .plaintext (renderBlob blobC4) ∧
    decryptOp gcmRejectC4 (some (.blobStr blobC4)) ≠ .failure :=
  ⟨rfl, by decide⟩

/-- C9: the api-key listing that the GET route returns verbatim exposes the
full decrypted key in each row rather than only the display portion stored
in the record, contradicting the claim that external listings mask the
secret. -/
theorem c9_listing_returns_plaintext :
    getUserApiKeys cbcOpenC9 apiKeyStoreC9 "u1" =
      [{ provider := "openai", keyName := "My Key",
         apiKey := "sk-secret1234567", createdAt := 5 }] ∧
    ("sk-secret1234567" : String) ≠ "sk-secr..." :=
  ⟨by decide, by decide⟩

/-- C3: a decoded (signature-valid, unexpired) access token whose embedded
tokenVersion differs from the user's current value never reaches the route
handler, and for an active, unlocked user the middleware answers precisely
with the 401 revoked response. -/
theorem c3_token_version_mismatch_rejected
    (lookup : String → Option UserRec) (p : APayload) (uid : String)
    (u : UserRec) (now v : Nat)
    (hid : p.userId = some uid) (hl : lookup uid = some u)
    (hv : p.tokenVersion = some v) (hne : v ≠ u.tokenVersion) :
    (∀ u2, authDecision (.valid p) lookup now ≠ .allowed u2) ∧
    (u.isActive = true → u.isLocked now = false →
      authDecision (.valid p) lookup now = .revoked ∧
      AuthOutcome.revoked.httpStatus = 401) := by
  constructor
  · intro u2
    by_cases hA : u.isActive = false
    · simp [authDecision, hid, hl, hv, hA]
    · rw [Bool.not_eq_false] at hA
      by_cases hL : u.isLocked now = true
      · simp [authDecision, hid, hl, hv, hA, hL]
      · rw [Bool.not_eq_true] at hL
        simp [authDecision, hid, hl, hv, hA, hL, hne]
  · intro hA hL
    refine ⟨?_, rfl⟩
    simp [authDecision, hid, hl, hv, hA, hL, hne]

/-- C3 witness: the example user sits at tokenVersion three while the token
carries version zero; the middleware answers revoked. -/
theorem c3_witness :
    (∀ u2, authDecision (.valid pC3) lookupEx 0 ≠ .allowed u2) ∧
    (uEx.isActive = true → uEx.isLocked 0 = false →
      authDecision (.valid pC3) lookupEx 0 = .revoked ∧
      AuthOutcome.revoked.httpStatus = 401) :=
  c3_token_version_mismatch_rejected lookupEx pC3 "u1" uEx 0 0
    (by decide) (by decide) (by decide) (by decide)

/-- C10: even with a signature-valid, unexpired token carrying the current
tokenVersion, the middleware refuses a deactivated user with the 401
unauthorized response and a locked user with the 423 response, before the
version gate is ever consulted. -/
theorem c10_lock_and_deactivation_gate
    (lookup : String → Option UserRec) (p : APayload) (uid : String)
    (u : UserRec) (now : Nat)
    (hid : p.userId = some uid) (hl : lookup uid = some u)
    (_hv : p.tokenVersion = some u.tokenVersion) :
    (u.isActive = false →
      authDecision (.valid p) lookup now = .deactivated ∧
      AuthOutcome.deactivated.httpStatus = 401) ∧
    (u.isActive = true → u.isLocked now = true →
      authDecision (.valid p) lookup now = .locked ∧
      AuthOutcome.locked.httpStatus = 423) := by
  constructor
  · intro hA
    exact ⟨by simp [authDecision, hid, hl, hA], rfl⟩
  · intro hA hL
    exact ⟨by simp [authDecision, hid, hl, hA, hL], rfl⟩

/-- C10 witness: the locked example user presents a current-version token at
an instant inside the lock window and is answered with 423. -/
theorem c10_witness :
    (uLockedEx.isActive = false →
      authDecision (.valid pC10) lookup2Ex 100 = .deactivated ∧
      AuthOutcome.deactivated.httpStatus = 401) ∧
    (uLockedEx.isActive = true → uLockedEx.isLocked 100 = true →
      authDecision (.valid pC10) lookup2Ex 100 = .locked ∧
      AuthOutcome.locked.httpStatus = 423) :=
  c10_lock_and_deactivation_gate lookup2Ex pC10 "u2" uLockedEx 100
    (by decide) (by decide) (by decide)

/-- C6: from the plainly unlocked state a failed login increments the
counter and installs the two-hour lock exactly when the post-increment count
reaches five; from a state whose lock has expired the counter restarts at
one with no lock; while the lock is in the future, login answers 423 with no
real password comparison, leaving the user document (and so the counter)
untouched, whatever the password was. -/
theorem c6_lockout_machine (u : UserRec) (now : Nat) (pv : Bool) :
    (u.lockUntil = none →
      (u.incLoginAttempts now).loginAttempts = u.loginAttempts + 1 ∧
      (u.loginAttempts + 1 = 5 →
        (u.incLoginAttempts now).lockUntil = some (now + twoHoursMs))) ∧
    (∀ l, u.lockUntil = some l → l < now →
      (u.incLoginAttempts now).loginAttempts = 1 ∧
      (u.incLoginAttempts now).lockUntil = none) ∧
    (u.isLocked now = true →
      loginOp true (some u) pv now =
        { outcome := .lockedOut, userAfter := some u, realCompare := false } ∧
      LoginOutcome.lockedOut.httpStatus = 423) := by
  refine ⟨?_, ?_, ?_⟩
  · intro hnone
    have hNotLocked : u.isLocked now = false := by
      simp [UserRec.isLocked, hnone]
    constructor
    · simp [UserRec.incLoginAttempts, hnone, UserRec.bumpAttempts]
    · intro h5
      simp [UserRec.incLoginAttempts, hnone, UserRec.bumpAttempts, h5, hNotLocked]
  · intro l hsome hlt
    simp [UserRec.incLoginAttempts, hsome, hlt]
  · intro hL
    exact ⟨by simp [loginOp, hL], rfl⟩

/-- C6 witness: the four-attempt example user fails a fifth time and is
locked for two hours; the locked example user is answered 423 untouched. -/
theorem c6_witness :
    ((uAlmostEx.lockUntil = none →
      (uAlmostEx.incLoginAttempts 100).loginAttempts = uAlmostEx.loginAttempts + 1 ∧
      (uAlmostEx.loginAttempts + 1 = 5 →
        (uAlmostEx.incLoginAttempts 100).lockUntil = some (100 + twoHoursMs))) ∧
    (∀ l, uAlmostEx.lockUntil = some l → l < 100 →
      (uAlmostEx.incLoginAttempts 100).loginAttempts = 1 ∧
      (uAlmostEx.incLoginAttempts 100).lockUntil = none) ∧
    (uAlmostEx.isLocked 100 = true →
      loginOp true (some uAlmostEx) true 100 =
        { outcome := .lockedOut, userAfter := some uAlmostEx, realCompare := false } ∧
      LoginOutcome.lockedOut.httpStatus = 423)) ∧
    ((uLockedEx.lockUntil = none →
      (uLockedEx.incLoginAttempts 100).loginAttempts = uLockedEx.loginAttempts + 1 ∧
      (uLockedEx.loginAttempts + 1 = 5 →
        (uLockedEx.incLoginAttempts 100).lockUntil = some (100 + twoHoursMs))) ∧
    (∀ l, uLockedEx.lockUntil = some l → l < 100 →
      (uLockedEx.incLoginAttempts 100).loginAttempts = 1 ∧
      (uLockedEx.incLoginAttempts 100).lockUntil = none) ∧
    (uLockedEx.isLocked 100 = true →
      loginOp true (some uLockedEx) false 100 =
        { outcome := .lockedOut, userAfter := some uLockedEx, realCompare := false } ∧
      LoginOutcome.lockedOut.httpStatus = 423)) :=
  ⟨c6_lockout_machine uAlmostEx 100 true, c6_lockout_machine uLockedEx 100 false⟩

/-- C5 counterexample: a state issued at time zero is presented eleven
minutes later, more than ten minutes after issuance, with no authorization
call (and hence no sweep) in between; handleCallback performs no age check,
accepts it, and creates an Integration record, so a callback with a state
older than ten minutes does not always fail. -/
theorem c5_counterexample_stale_state_accepted :
    tenMinutesMs < nowC5 - 0 ∧
    storeGet stC5 "s1" =
      some { userId := "u1", integrationId := "notion",
             redirectUri := "https://app/cb", timestamp := 0 } ∧
    (handleCallback knownC5 exchangeC5 sealC5 stC5 [] (some "code0")
        (some "s1") none nowC5).result =
      .succeeded
        { userId := "u1", integrationId := "notion", status := .connected,
          accessToken := some (.blobStr
            { encrypted := "enc-tok123", iv := "iv", authTag := "tag" }),
          refreshToken := none,
          tokenExpiresAt := some (nowC5 + 3600 * 1000),
          workspaceId := none, organizationId := none } ∧
    (handleCallback knownC5 exchangeC5 sealC5 stC5 [] (some "code0")
        (some "s1") none nowC5).ints ≠ ([] : IntStore) := by
  decide

/-- C5 as amended: a state absent from the store is a hard failure that
touches neither the store nor the integration collection; a state that is
found is deleted before the code exchange, so it is gone from the resulting
store whatever the exchange does, and a second callback presenting the same
state against that store fails and creates or updates nothing.  Entries
older than ten minutes are removed only by the lazy sweep that
generateAuthUrl runs. -/
theorem c5_amended_state_store
    (known known2 : String → Bool)
    (exchange exchange2 : String → String → String → Option TokenResp)
    (sf sf2 : String → Blob)
    (st : StateStore) (ints ints2 : IntStore)
    (c c2 s : String) (now now2 : Nat) :
    (storeGet st s = none →
      handleCallback known exchange sf st ints (some c) (some s) none now =
        { result := .failed .stateInvalid, store := st, ints := ints }) ∧
    (∀ sd, storeGet st s = some sd →
      storeGet (handleCallback known exchange sf st ints (some c)
          (some s) none now).store s = none ∧
      handleCallback known2 exchange2 sf2
          (handleCallback known exchange sf st ints (some c)
            (some s) none now).store
          ints2 (some c2) (some s) none now2 =
        { result := .failed .stateInvalid,
          store := (handleCallback known exchange sf st ints (some c)
            (some s) none now).store,
          ints := ints2 }) := by
  have hdel : storeGet (storeDelete st s) s = none := by
    apply Option.map_eq_none.mpr
    rw [List.find?_eq_none]
    intro x hx
    have := (List.mem_filter.mp hx).2
    simp only [bne_iff_ne, ne_eq] at this
    simp [this]
  constructor
  · intro hnone
    simp [handleCallback, hnone]
  · intro sd hsome
    have hstore :
        (handleCallback known exchange sf st ints (some c)
          (some s) none now).store = storeDelete st s := by
      simp only [handleCallback, Option.isSome_none, Bool.false_eq_true,
        if_false, hsome]
      by_cases hk : known sd.integrationId = false
      · simp [hk]
      · rw [Bool.not_eq_false] at hk
        cases hex : exchange sd.integrationId c sd.redirectUri with
        | none => simp [hk, hex]
        | some td =>
          cases htd : td.access_token with
          | none => simp [hk, hex, createOrUpdateIntegration, htd]
          | some a => simp [hk, hex, createOrUpdateIntegration, htd]
    refine ⟨by rw [hstore]; exact hdel, ?_⟩
    rw [hstore]
    simp [handleCallback, hdel]

/-- C5 witness for the amended statement: with an empty store the callback
fails as state-invalid and writes nothing; consuming the single entry of the
example store leaves a store in which the same state is no longer found. -/
theorem c5_amended_witness :
    handleCallback knownC5 exchangeC5 sealC5 [] [] (some "code0")
        (some "s1") none 0 =
      { result := .failed .stateInvalid, store := [], ints := [] } ∧
    storeGet (handleCallback knownC5 exchangeC5 sealC5 stC5 [] (some "code0")
        (some "s1") none 0).store "s1" = none :=
  ⟨(c5_amended_state_store knownC5 knownC5 exchangeC5 exchangeC5 sealC5 sealC5
      [] [] [] "code0" "code0" "s1" 0 0).1 (by decide),
   ((c5_amended_state_store knownC5 knownC5 exchangeC5 exchangeC5 sealC5 sealC5
      stC5 [] [] "code0" "code0" "s1" 0 0).2
      { userId := "u1", integrationId := "notion",
        redirectUri := "https://app/cb", timestamp := 0 } (by decide)).1⟩

/-- helper: every member of the list addRefreshToken builds was either kept
from the previous list or is the appended record. -/
theorem mem_addRefreshToken (u1 : UserRec) (newTok : String)
    (ip ua : Option String) (rt : RefreshRec)
    (hrt : rt ∈ (u1.addRefreshToken newTok ip ua).refreshTokens) :
    rt ∈ u1.refreshTokens ∨ rt = mkRefreshRec newTok ip ua := by
  have hrt2 : rt ∈ u1.refreshTokens ++ [mkRefreshRec newTok ip ua] := by
    simp only [UserRec.addRefreshToken, mkRefreshRec] at hrt
    split at hrt
    · exact List.drop_subset _ _ hrt
    · exact hrt
  rcases List.mem_append.mp hrt2 with hleft | hright
  · exact Or.inl hleft
  · exact Or.inr (by simpa using hright)

/-- helper: no record of the rotated list carries the rotated-away token. -/
theorem addRefreshToken_no_old_token (u1 : UserRec) (newTok tok : String)
    (ip ua : Option String)
    (h1 : ∀ rt ∈ u1.refreshTokens, rt.token ≠ tok) (h2 : newTok ≠ tok) :
    ∀ rt ∈ (u1.addRefreshToken newTok ip ua).refreshTokens, rt.token ≠ tok := by
  intro rt hrt
  rcases mem_addRefreshToken u1 newTok ip ua rt hrt with hleft | heq
  · exact h1 rt hleft
  · rw [heq]
    exact h2

/-- C7: when the presented refresh token verifies and is present in the
stored list, rotation issues a fresh pair; the update removes every record
holding exactly that token and keeps every other record, and any subsequent
rotation that presents the same old token against the updated user no longer
finds it and is rejected through the reuse branch. -/
theorem c7_rotation_single_use
    (verify : String → Option RPayload) (lookup : String → Option UserRec)
    (genAccess genRefresh : UserRec → String) (tok : String)
    (ip ua : Option String) (p : RPayload) (u : UserRec)
    (hv : verify tok = some p) (hl : lookup p.userId = some u)
    (hmem : u.refreshTokens.any (fun rt => rt.token == tok) = true)
    (hfresh : genRefresh (u.removeRefreshToken tok) ≠ tok) :
    ∃ u2 a r,
      refreshTokensOp verify lookup genAccess genRefresh tok ip ua =
        .rotated u2 a r ∧
      (∀ rt ∈ u2.refreshTokens, rt.token ≠ tok) ∧
      (∀ rt ∈ u.refreshTokens, rt.token ≠ tok →
        rt ∈ (u.removeRefreshToken tok).refreshTokens) ∧
      (∀ rt ∈ (u.removeRefreshToken tok).refreshTokens, rt.token ≠ tok) ∧
      (∀ lookup2 : String → Option UserRec, lookup2 p.userId = some u2 →
        refreshTokensOp verify lookup2 genAccess genRefresh tok ip ua =
          .reuseDetected u2.removeAllRefreshTokens) := by
  have hfiltered : ∀ rt ∈ (u.removeRefreshToken tok).refreshTokens,
      rt.token ≠ tok := by
    intro rt hrt
    have := List.of_mem_filter hrt
    simpa [bne_iff_ne] using this
  have hno : ∀ rt ∈ ((u.removeRefreshToken tok).addRefreshToken
      (genRefresh (u.removeRefreshToken tok)) ip ua).refreshTokens,
      rt.token ≠ tok :=
    addRefreshToken_no_old_token (u.removeRefreshToken tok)
      (genRefresh (u.removeRefreshToken tok)) tok ip ua hfiltered hfresh
  refine ⟨(u.removeRefreshToken tok).addRefreshToken
      (genRefresh (u.removeRefreshToken tok)) ip ua,
    genAccess (u.removeRefreshToken tok),
    genRefresh (u.removeRefreshToken tok), ?_, hno, ?_, hfiltered, ?_⟩
  · simp [refreshTokensOp, hv, hl, hmem]
  · intro rt hrt hne
    apply List.mem_filter.mpr
    exact ⟨hrt, by simpa [bne_iff_ne] using hne⟩
  · intro lookup2 hl2
    have habs2 : (((u.removeRefreshToken tok).addRefreshToken
        (genRefresh (u.removeRefreshToken tok)) ip ua).refreshTokens.any
          (fun rt => rt.token == tok)) = false := by
      rw [List.any_eq_false]
      intro rt hrt
      simpa using hno rt hrt
    simp [refreshTokensOp, hv, hl2, habs2]

/-- C7 witness: the example user rotates rtOld into rtNew; the old token is
gone from the updated list and replaying it is rejected. -/
theorem c7_witness :
    ∃ u2 a r,
      refreshTokensOp verifyEx lookupEx genAccessEx genRefreshEx "rtOld" none none =
        .rotated u2 a r ∧
      (∀ rt ∈ u2.refreshTokens, rt.token ≠ "rtOld") ∧
      (∀ rt ∈ uEx.refreshTokens, rt.token ≠ "rtOld" →
        rt ∈ (uEx.removeRefreshToken "rtOld").refreshTokens) ∧
      (∀ rt ∈ (uEx.removeRefreshToken "rtOld").refreshTokens,
        rt.token ≠ "rtOld") ∧
      (∀ lookup2 : String → Option UserRec, lookup2 "u1" = some u2 →
        refreshTokensOp verifyEx lookup2 genAccessEx genRefreshEx "rtOld" none none =
          .reuseDetected u2.removeAllRefreshTokens) :=
  c7_rotation_single_use verifyEx lookupEx genAccessEx genRefreshEx
    "rtOld" none none { userId := "u1", jti := "j1" } uEx
    (by decide) (by decide) (by decide) (by decide)


/-- helper: deactivating the pair everywhere cannot raise any active count. -/
theorem countActive_wipe_le (uid p q r : String) (s : VaultStore) :
    countActive (applyWrite (.wipeActive uid p) s) q r ≤ countActive s q r := by
  simp only [applyWrite, countActive, List.countP_map]
  apply List.countP_mono_left
  intro k hk hmatch
  simp only [Function.comp] at hmatch
  by_cases h : (k.userId == uid && k.provider == p) = true
  · rw [if_pos h] at hmatch
    simp [activeMatch] at hmatch
  · rwa [if_neg h] at hmatch

/-- helper: deactivating one record cannot raise any active count. -/
theorem countActive_deactivateFirst_le (s : VaultStore) (uid p q r : String) :
    countActive (deactivateFirst s uid p) q r ≤ countActive s q r := by
  induction s with
  | nil => simp [deactivateFirst]
  | cons k rest ih =>
    simp only [deactivateFirst]
    by_cases h : activeMatch uid p k = true
    · rw [if_pos h]
      simp only [countActive, List.countP_cons]
      have hfalse : activeMatch q r { k with isActive := false } = false := by
        simp [activeMatch]
      rw [hfalse]
      simp only [Bool.false_eq_true, if_false]
      omega
    · rw [if_neg h]
      simp only [countActive, List.countP_cons] at ih ⊢
      omega

/-- helper: every single durable write preserves the at-most-one-active
invariant, the index-guarded insert included. -/
theorem applyWrite_activeUniq (w : VaultWrite) (s : VaultStore)
    (h : activeUniq s) : activeUniq (applyWrite w s) := by
  cases w with
  | wipeActive uid p =>
    intro q r
    exact le_trans (countActive_wipe_le uid p q r s) (h q r)
  | deactivateOne uid p =>
    intro q r
    exact le_trans (countActive_deactivateFirst_le s uid p q r) (h q r)
  | insertActive rec1 =>
    intro q r
    simp only [applyWrite]
    by_cases hg : countActive s rec1.userId rec1.provider > 0
    · rw [if_pos hg]
      exact h q r
    · rw [if_neg hg]
      have hz : countActive s rec1.userId rec1.provider = 0 := by omega
      simp only [countActive, List.countP_append, List.countP_cons,
        List.countP_nil]
      by_cases hm : activeMatch q r { rec1 with isActive := true } = true
      · have hqr : rec1.userId = q ∧ rec1.provider = r := by
          simp only [activeMatch, Bool.and_eq_true, beq_iff_eq] at hm
          exact ⟨hm.1.1, hm.1.2⟩
        have hz2 : List.countP (activeMatch q r) s = 0 := by
          rw [← hqr.1, ← hqr.2]
          exact hz
        rw [hm, hz2]
        simp
      · rw [Bool.not_eq_true] at hm
        rw [hm]
        have := h q r
        simp only [countActive] at this
        simpa using this

/-- helper: every state a write sequence passes through keeps the
invariant. -/
theorem runWrites_activeUniq (ws : List VaultWrite) (s : VaultStore)
    (h : activeUniq s) : ∀ s1 ∈ runWrites s ws, activeUniq s1 := by
  induction ws generalizing s with
  | nil =>
    intro s1 h1
    simp only [runWrites, List.mem_singleton] at h1
    rwa [h1]
  | cons w ws2 ih =>
    intro s1 h1
    simp only [runWrites, List.mem_cons] at h1
    rcases h1 with h1 | h1
    · rwa [h1]
    · exact ih (applyWrite w s) (applyWrite_activeUniq w s h) s1 h1

/-- C8: starting from any store satisfying the at-most-one-active-per-pair
property, every state passed through by the durable writes of any finite
sequence of save and delete operations satisfies it as well: save first
deactivates the whole pair and only then inserts, and the insert itself is
guarded by the uniqueness constraint over active records, so no point in
the sequence exposes two active records for a pair. -/
theorem c8_active_unique_invariant (ops : List VaultOp) (s0 : VaultStore)
    (h : activeUniq s0) :
    ∀ s1 ∈ runWrites s0 (writesOfOps ops), activeUniq s1 :=
  runWrites_activeUniq (writesOfOps ops) s0 h

/-- C8 witness: the empty store satisfies the invariant, and so does the
intermediate state of the example sequence in which the first key has just
been displaced by the second. -/
theorem c8_witness : activeUniq ([] : VaultStore) ∧ activeUniq vaultS1ex := by
  have h0 : activeUniq ([] : VaultStore) := by
    intro q r
    simp [countActive]
  exact ⟨h0, c8_active_unique_invariant opsC8 [] h0 vaultS1ex (by decide)⟩

end Sawyer
